import Mathlib

/-!
Shallow embedding of `zatt/client/distributedDict.py` and proofs about it.

The Python module defines `AbstractClient` (single-shot request/response with
recursive redirect following), four refresh policies
(`RefreshPolicyAlways`, `RefreshPolicyLock`, `RefreshPolicyCount`,
`RefreshPolicyTime`) and `DistributedDict`, a `UserDict` facade whose
`data` mapping is replaced wholesale by snapshot refreshes and that stores
the cluster membership list under the key `"cluster"` of that same mapping.

Python values, messages and responses are embedded as inductive types;
the network is a deterministic function from (address, message) to response;
Python exceptions are embedded as explicit error results that carry the
object state at the point the exception escapes; the unbounded redirect
recursion of `_request` is embedded with a fuel parameter, `PyErr.fuel`
marking that the recursion exceeded the given bound.
-/

namespace Zatt

/-- A `(host, port)` pair, the result of `tuple(...)` on a two-element list. -/
abbrev Addr := String × Int

/-- Embedded Python values, as far as the client manipulates them. -/
inductive Val where
  | vint (n : Int)
  | vstr (s : String)
  | vaddrs (l : List Addr)
  deriving DecidableEq

/-- Embedded Python exceptions. `fuel` is not a Python exception: it marks
that the fueled evaluation of the unbounded redirect recursion was cut off. -/
inductive PyErr where
  | keyError (k : String)
  | typeError
  | indexError
  | nameError
  | fuel
  deriving DecidableEq

/-- Request messages, as built by the client:
`{'type': 'get'}`, `{'type': 'append', 'data': {'action': ..., 'key': ..., 'value': ...}}`,
`{'type': 'diagnostic'}`, `{'type': 'config', ...}`. -/
inductive Msg where
  | get
  | append (action : String) (key : String) (value : Option Val)
  | diagnostic
  | config (action : String) (address : String) (port : Int)
  deriving DecidableEq

/-- Server responses. A snapshot is the full remote state, a mapping from
string keys to values (the server keeps the membership list under the key
`"cluster"` of this same mapping). `redirect` is recognized by `_request`
via `resp['type'] == 'redirect'`; `appendResult` carries the
`resp['success']` flag read by `_append_log`. -/
inductive Resp where
  | redirect (leader : Addr)
  | snapshot (s : String → Option Val)
  | appendResult (success : Bool)
  | other (v : Val)

/-- The network: a deterministic response for every (address, message). -/
abbrev Net := Addr → Msg → Resp

/-- The sequence of `(address, message)` sends performed by an operation. -/
abbrev Trace := List (Addr × Msg)

/-! ### `AbstractClient._request`

```python
def _request(self, message):
    ... connect to self.server_address, send message, read reply ...
    if 'type' in resp and resp['type'] == 'redirect':
        self.server_address = tuple(resp['leader'])
        resp = self._request(message)
    return resp
```

The recursion has no hop counter; the embedding adds a fuel parameter and
returns `Except.error .fuel` when the chain of redirects outruns it. On
success it returns the response together with the final value of
`self.server_address` (the address that answered with a non-redirect),
plus the trace of sends. -/

def _request (net : Net) : Nat → Addr → Msg → Trace × Except PyErr (Resp × Addr)
  | 0, _, _ => ([], Except.error PyErr.fuel)
  | fuel + 1, addr, msg =>
    match net addr msg with
    | Resp.redirect leader =>
      let r := _request net fuel leader msg
      ((addr, msg) :: r.1, r.2)
    | resp => ([(addr, msg)], Except.ok (resp, addr))

/-! ### Refresh policies -/

/-- `RefreshPolicyCount`: `counter` starts at 0; `can_update` increments it,
returns `True` and resets it when it equals `maximum`, else returns `False`.

```python
def __init__(self, maximum=10):
    self.counter = 0
    self.maximum = maximum

def can_update(self):
    self.counter += 1
    if self.counter == self.maximum:
        self.counter = 0
        return True
    else:
        return False
``` -/
structure RefreshPolicyCount where
  counter : Int
  maximum : Int
  deriving DecidableEq

def RefreshPolicyCount.init (maximum : Int) : RefreshPolicyCount :=
  { counter := 0, maximum := maximum }

def RefreshPolicyCount.can_update (p : RefreshPolicyCount) : Bool × RefreshPolicyCount :=
  let c := p.counter + 1
  if c = p.maximum then (true, { p with counter := 0 })
  else (false, { p with counter := c })

/-- The policy state after `n` calls to `can_update`. -/
def RefreshPolicyCount.states (p : RefreshPolicyCount) : Nat → RefreshPolicyCount
  | 0 => p
  | n + 1 => (p.states n).can_update.2

/-- The result of the `(n+1)`-th call to `can_update` starting from `p`. -/
def RefreshPolicyCount.decideAt (p : RefreshPolicyCount) (n : Nat) : Bool :=
  ((p.states n).can_update).1

/-- `RefreshPolicyTime` state: `delta` and `last_refresh` as microsecond
timestamps (`datetime.timedelta` has microsecond resolution). -/
structure RefreshPolicyTime where
  delta : Int
  last_refresh : Option Int
  deriving DecidableEq

/-- The constructor argument of `RefreshPolicyTime`: either a
`datetime.timedelta` value (the documented and default usage, not callable)
or a zero-argument callable producing a timedelta. -/
inductive TimeDeltaArg where
  | timedelta (us : Int)
  | callableReturning (us : Int)
  deriving DecidableEq

/-- ```python
def __init__(self, delta=datetime.timedelta(minutes=1)):
    self.delta = delta()
    self.last_refresh = None
```
`delta()` calls the argument: on a `datetime.timedelta` (including the
default) this raises `TypeError`; only a callable yields a usable policy. -/
def RefreshPolicyTime.init (delta : TimeDeltaArg) : Except PyErr RefreshPolicyTime :=
  match delta with
  | TimeDeltaArg.timedelta _ => Except.error PyErr.typeError
  | TimeDeltaArg.callableReturning us =>
    Except.ok { delta := us, last_refresh := none }

/-- ```python
def can_update(self):
    if self.last_refresh is None or datetime.datetime.now() - self.last_refresh > self.delta:
        self.last_refresh = datetime.datetime.now()
        return True
    else:
        return False
```
`now` is the current wall-clock time in microseconds. -/
def RefreshPolicyTime.can_update (p : RefreshPolicyTime) (now : Int) :
    Bool × RefreshPolicyTime :=
  match p.last_refresh with
  | none => (true, { p with last_refresh := some now })
  | some lr =>
    if now - lr > p.delta then (true, { p with last_refresh := some now })
    else (false, p)

/-! ### `DistributedDict._append_log` retry loop

```python
def _append_log(self, payload):
    for attempt in range(self.append_retry_attempts):
        response = super()._append_log(payload)
        if response['success']:
            break
    return response
```

The loop skeleton, with the per-attempt result of
`AbstractClient._append_log` abstracted as the success flag `resp i` of
attempt `i`. Returns `(attempts made, last success flag)`. -/

def append_retry_loop (resp : Nat → Bool) (i : Nat) : Nat → Nat × Bool
  | 0 => (0, false)
  | 1 => (1, resp i)
  | k + 2 =>
    if resp i then (1, true)
    else
      let r := append_retry_loop resp (i + 1) (k + 1)
      (r.1 + 1, r.2)

/-- `_append_log` over the abstract attempt results: for
`append_retry_attempts = 0` the loop body never runs and the final
`return response` raises `NameError` (embedded as `none`). -/
def append_log_retry (resp : Nat → Bool) (n : Nat) : Option (Nat × Bool) :=
  if n = 0 then none else some (append_retry_loop resp 0 n)

/-! ### `DistributedDict` facade -/

/-- The refresh policy object held by a `DistributedDict`
(`RefreshPolicyTime` is omitted here: its constructor raises `TypeError`
on any `timedelta` argument, see `RefreshPolicyTime.init`). -/
inductive RefreshPolicy where
  | always
  | lock (status : Bool)
  | count (p : RefreshPolicyCount)
  deriving DecidableEq

/-- Dispatch of `self.refresh_policy.can_update()`. -/
def RefreshPolicy.can_update : RefreshPolicy → Bool × RefreshPolicy
  | RefreshPolicy.always => (true, RefreshPolicy.always)
  | RefreshPolicy.lock s => (s, RefreshPolicy.lock s)
  | RefreshPolicy.count p =>
    let r := p.can_update
    (r.1, RefreshPolicy.count r.2)

/-- The mutable state of a `DistributedDict` instance. `data` is the
`UserDict` mapping: it holds the application keys AND the membership list,
the latter under the key `"cluster"`. -/
structure DistributedDict where
  data : String → Option Val
  server_address : Addr
  append_retry_attempts : Nat
  refresh_policy : RefreshPolicy

/-- The outcome of a facade operation: a normal return or an escaping
exception, in both cases together with the object state at that point
(a Python exception does not roll back attribute mutations). -/
inductive Step (α : Type) where
  | ok (v : α) (st : DistributedDict)
  | exn (e : PyErr) (st : DistributedDict)

/-- The object state carried by an outcome, normal or exceptional. -/
def Step.state {α : Type} : Step α → DistributedDict
  | Step.ok _ st => st
  | Step.exn _ st => st

/-- `random.choice(v)` at choice index `pick`: selects an element when `v`
is a (nonempty) list of addresses, raises `IndexError` on an empty list and
`TypeError` on a non-sequence value such as an int. -/
def choose (pick : Nat) : Val → Except PyErr Addr
  | Val.vaddrs l =>
    match l.get? (pick % l.length) with
    | some a => Except.ok a
    | none => Except.error PyErr.indexError
  | _ => Except.error PyErr.typeError

/-- ```python
def _get_state(self):
    self.server_address = tuple(random.choice(self.data['cluster']))
    return self._request({'type': 'get'})
``` -/
def DistributedDict._get_state (net : Net) (pick fuel : Nat) (st : DistributedDict) :
    Trace × Step Resp :=
  match st.data "cluster" with
  | none => ([], Step.exn (PyErr.keyError "cluster") st)
  | some v =>
    match choose pick v with
    | Except.error e => ([], Step.exn e st)
    | Except.ok a =>
      let st1 := { st with server_address := a }
      let r := _request net fuel a Msg.get
      match r.2 with
      | Except.error e => (r.1, Step.exn e st1)
      | Except.ok (resp, a2) => (r.1, Step.ok resp { st1 with server_address := a2 })

/-- ```python
def refresh(self, force=False):
    if force or self.refresh_policy.can_update():
        self.data = self._get_state()
```
`or` short-circuits: with `force` true the policy is not consulted (and its
state is not mutated). The assignment `self.data = ...` replaces the whole
mapping with the snapshot; a non-mapping response cannot inhabit the typed
`data` field and is embedded as a `TypeError`. -/
def DistributedDict.refresh (net : Net) (pick fuel : Nat) (force : Bool)
    (st : DistributedDict) : Trace × Step Unit :=
  let fetch := fun (st1 : DistributedDict) =>
    let r := DistributedDict._get_state net pick fuel st1
    match r.2 with
    | Step.exn e st2 => (r.1, Step.exn e st2)
    | Step.ok resp st2 =>
      match resp with
      | Resp.snapshot s => (r.1, Step.ok () { st2 with data := s })
      | _ => (r.1, Step.exn PyErr.typeError st2)
  if force then fetch st
  else
    let c := st.refresh_policy.can_update
    let st1 := { st with refresh_policy := c.2 }
    if c.1 then fetch st1 else ([], Step.ok () st1)

/-- ```python
def __getitem__(self, key):
    self.refresh()
    return self.data[key]
``` -/
def DistributedDict.getItem (net : Net) (pick fuel : Nat) (key : String)
    (st : DistributedDict) : Trace × Step Val :=
  let r := DistributedDict.refresh net pick fuel false st
  match r.2 with
  | Step.exn e st2 => (r.1, Step.exn e st2)
  | Step.ok _ st2 =>
    match st2.data key with
    | some v => (r.1, Step.ok v st2)
    | none => (r.1, Step.exn (PyErr.keyError key) st2)

/-- The retry loop of `DistributedDict._append_log` over the deterministic
network, the remaining iteration count as last argument:

```python
for attempt in range(self.append_retry_attempts):
    response = super()._append_log(payload)   # = self._request({'type': 'append', 'data': payload})
    if response['success']:
        break
return response
```
With zero iterations `response` is unbound (`NameError`); a response
without a `'success'` entry raises `KeyError`. -/
def append_loop (net : Net) (fuel : Nat) (msg : Msg) :
    Nat → DistributedDict → Trace × Step Resp
  | 0, st => ([], Step.exn PyErr.nameError st)
  | 1, st =>
    let r := _request net fuel st.server_address msg
    match r.2 with
    | Except.error e => (r.1, Step.exn e st)
    | Except.ok (resp, a) =>
      let st2 := { st with server_address := a }
      match resp with
      | Resp.appendResult _ => (r.1, Step.ok resp st2)
      | _ => (r.1, Step.exn (PyErr.keyError "success") st2)
  | k + 2, st =>
    let r := _request net fuel st.server_address msg
    match r.2 with
    | Except.error e => (r.1, Step.exn e st)
    | Except.ok (resp, a) =>
      let st2 := { st with server_address := a }
      match resp with
      | Resp.appendResult true => (r.1, Step.ok resp st2)
      | Resp.appendResult false =>
        let r2 := append_loop net fuel msg (k + 1) st2
        (r.1 ++ r2.1, r2.2)
      | _ => (r.1, Step.exn (PyErr.keyError "success") st2)

/-- `DistributedDict._append_log(payload)`. -/
def DistributedDict._append_log (net : Net) (fuel : Nat) (msg : Msg)
    (st : DistributedDict) : Trace × Step Resp :=
  append_loop net fuel msg st.append_retry_attempts st

/-- ```python
def __setitem__(self, key, value):
    self._append_log({'action': 'change', 'key': key, 'value': value})
``` -/
def DistributedDict.setItem (net : Net) (fuel : Nat) (key : String) (value : Val)
    (st : DistributedDict) : Trace × Step Resp :=
  DistributedDict._append_log net fuel (Msg.append "change" key (some value)) st

/-- `__keytransform__` is the identity. -/
def DistributedDict.keytransform (key : String) : String := key

/-- ```python
def __delitem__(self, key):
    self.refresh(force=True)
    del self.data[self.__keytransform__(key)]
    self._append_log({'action': 'delete', 'key': key})
```
`del` on an absent key raises `KeyError` before any append is sent. -/
def DistributedDict.delItem (net : Net) (pick fuel : Nat) (key : String)
    (st : DistributedDict) : Trace × Step Resp :=
  let r1 := DistributedDict.refresh net pick fuel true st
  match r1.2 with
  | Step.exn e st2 => (r1.1, Step.exn e st2)
  | Step.ok _ st2 =>
    match st2.data (DistributedDict.keytransform key) with
    | none => (r1.1, Step.exn (PyErr.keyError key) st2)
    | some _ =>
      let st3 := { st2 with
        data := fun x => if x = DistributedDict.keytransform key then none else st2.data x }
      let r2 := DistributedDict._append_log net fuel (Msg.append "delete" key none) st3
      (r1.1 ++ r2.1, r2.2)

/-- ```python
def __init__(self, addr, port, append_retry_attempts=3, refresh_policy=RefreshPolicyAlways()):
    super().__init__()
    self.data['cluster'] = [(addr, port)]
    self.append_retry_attempts = append_retry_attempts
    self.refresh_policy = refresh_policy
    self.refresh(force=True)
```
The seed membership list is written into the same `data` mapping that will
hold application keys. `server_address` is first assigned inside
`_get_state`; the seed address stands in for the initially absent
attribute. -/
def DistributedDict.init (net : Net) (pick fuel : Nat) (addr : String) (port : Int)
    (append_retry_attempts : Nat) (refresh_policy : RefreshPolicy) :
    Trace × Step Unit :=
  let st0 : DistributedDict := {
    data := fun k => if k = "cluster" then some (Val.vaddrs [(addr, port)]) else none
    server_address := (addr, port)
    append_retry_attempts := append_retry_attempts
    refresh_policy := refresh_policy }
  DistributedDict.refresh net pick fuel true st0

/-! ### Concrete networks and states used in witnesses and counterexamples -/

/-- A network in which every node answers every request by redirecting to
itself: the shortest possible redirect cycle. -/
def cycNet : Net := fun a _ => Resp.redirect a

/-- A two-node network: node `("A", 0)` redirects every request to
`("B", 0)`; every other node acknowledges. -/
def twoNodeNet : Net := fun a _ =>
  if a = (("A" : String), (0 : Int)) then Resp.redirect ("B", 0)
  else Resp.appendResult true

/-- A snapshot in which the application wrote the value `7` under the
reserved membership key `"cluster"`. -/
def snapCollide : String → Option Val := fun k =>
  if k = "cluster" then some (Val.vint 7)
  else if k = "x" then some (Val.vint 1) else none

/-- A network whose nodes all serve `snapCollide` on get. -/
def netCollide : Net := fun _ m =>
  match m with
  | Msg.get => Resp.snapshot snapCollide
  | _ => Resp.appendResult true

/-- The client state right after construction against `netCollide`. -/
def ddCollide : DistributedDict :=
  { data := snapCollide
    server_address := ("a", 1)
    append_retry_attempts := 3
    refresh_policy := RefreshPolicy.always }

/-- A healthy snapshot: membership under `"cluster"`, one application key
`"a"`. -/
def snapGood : String → Option Val := fun k =>
  if k = "cluster" then some (Val.vaddrs [("a", 1)])
  else if k = "a" then some (Val.vint 1) else none

/-- A network serving `snapGood` on get and refusing every append. -/
def netGood : Net := fun _ m =>
  match m with
  | Msg.get => Resp.snapshot snapGood
  | _ => Resp.appendResult false

/-- A client state holding `snapGood` under a lock-gated policy whose lock
is false (no refresh ever allowed by the policy). -/
def ddGood : DistributedDict :=
  { data := snapGood
    server_address := ("a", 1)
    append_retry_attempts := 3
    refresh_policy := RefreshPolicy.lock false }

/-! ## Theorems -/

/-- C1: the claim fails on the code. `_request` follows redirects by
unbounded recursion: against a redirect cycle, no fuel bound suffices (the
fueled embedding is cut off at every bound, after one send per hop), and no
`RedirectLoopError` exists anywhere in the source. -/
theorem request_redirect_cycle_unbounded :
    ∀ (fuel : Nat) (a : Addr) (msg : Msg),
      (_request cycNet fuel a msg).2 = Except.error PyErr.fuel ∧
      (_request cycNet fuel a msg).1.length = fuel := by
  intro fuel
  induction fuel with
  | zero => intro a msg; exact ⟨rfl, rfl⟩
  | succ k ih =>
    intro a msg
    have h := ih a msg
    simp only [_request, cycNet, List.length_cons]
    exact ⟨h.1, by rw [h.2]⟩

/-- C4: the claim fails on the code. `RefreshPolicyTime.__init__` executes
`self.delta = delta()`, calling its argument: with a `datetime.timedelta`
(including the documented default) this raises `TypeError`, so no policy is
ever constructed from a plain interval. Only a callable argument yields a
policy, and that policy then gates as the claim describes (first call true;
a call 0.1s after a true baseline false; a call 1.1s after it true, with
the baseline re-recorded). -/
theorem time_policy_init_type_error :
    (∀ us : Int, RefreshPolicyTime.init (TimeDeltaArg.timedelta us)
        = Except.error PyErr.typeError) ∧
    RefreshPolicyTime.init (TimeDeltaArg.callableReturning 1000000)
        = Except.ok { delta := 1000000, last_refresh := none } ∧
    RefreshPolicyTime.can_update { delta := 1000000, last_refresh := none } 0
        = (true, { delta := 1000000, last_refresh := some 0 }) ∧
    RefreshPolicyTime.can_update { delta := 1000000, last_refresh := some 0 } 100000
        = (false, { delta := 1000000, last_refresh := some 0 }) ∧
    RefreshPolicyTime.can_update { delta := 1000000, last_refresh := some 0 } 1100000
        = (true, { delta := 1000000, last_refresh := some 1100000 }) := by
  refine ⟨fun us => rfl, rfl, rfl, ?_, ?_⟩ <;>
    simp [RefreshPolicyTime.can_update]

/-- Counter evolution of `RefreshPolicyCount` with a non-positive maximum:
the counter, incremented from 0, never meets the maximum. -/
theorem count_states_nonpos (m : Int) (hm : m ≤ 0) :
    ∀ n : Nat, (RefreshPolicyCount.init m).states n = { counter := (n : Int), maximum := m } := by
  intro n
  induction n with
  | zero => rfl
  | succ k ih =>
    simp only [RefreshPolicyCount.states, ih, RefreshPolicyCount.can_update]
    have : ¬ ((k : Int) + 1 = m) := by omega
    simp [this]

/-- C5 counterexample: constructing `RefreshPolicyCount` with
`maximum = 0 < 1` does not fail: the constructor performs no validation
(there is no `InvalidConfiguration` anywhere in the source), and the
resulting policy is usable — its first `can_update` call runs and returns
`False`. -/
theorem count_policy_no_validation :
    RefreshPolicyCount.init 0 = { counter := 0, maximum := 0 } ∧
    (RefreshPolicyCount.init 0).decideAt 0 = false := ⟨rfl, rfl⟩

/-- C5 amended: constructing `RefreshPolicyCount` with any `maximum < 1`
succeeds without validation, and for every such non-positive maximum every
`can_update` call returns `False` (the counter, always positive once
incremented, never equals the maximum), so the policy never allows a
refresh. -/
theorem count_policy_nonpos_never_updates (m : Int) (hm : m ≤ 0) :
    ∀ n : Nat, (RefreshPolicyCount.init m).decideAt n = false := by
  intro n
  simp only [RefreshPolicyCount.decideAt, count_states_nonpos m hm n,
    RefreshPolicyCount.can_update]
  have : ¬ ((n : Int) + 1 = m) := by omega
  simp [this]

/-- Witness for `count_policy_nonpos_never_updates` at `maximum = 0`. -/
theorem count_policy_nonpos_never_updates_witness :
    (RefreshPolicyCount.init 0).decideAt 5 = false :=
  count_policy_nonpos_never_updates 0 (by norm_num) 5

/-- Counter evolution of `RefreshPolicyCount.init 3`: the counter cycles
through `0, 1, 2` with period 3. -/
theorem count_states_three :
    ∀ n : Nat, (RefreshPolicyCount.init 3).states n
      = { counter := ((n % 3 : Nat) : Int), maximum := 3 } := by
  intro n
  induction n with
  | zero => rfl
  | succ k ih =>
    simp only [RefreshPolicyCount.states, ih, RefreshPolicyCount.can_update]
    have h3 : k % 3 = 0 ∨ k % 3 = 1 ∨ k % 3 = 2 := by omega
    rcases h3 with h | h | h
    · have h1 : (k + 1) % 3 = 1 := by omega
      rw [h, h1]; norm_num
    · have h1 : (k + 1) % 3 = 2 := by omega
      rw [h, h1]; norm_num
    · have h1 : (k + 1) % 3 = 0 := by omega
      rw [h, h1]; norm_num

/-- C7: for `RefreshPolicyCount(maximum=3)` the `(n+1)`-th `can_update`
call returns true exactly when `n + 1` is a multiple of 3: the sequence is
false, false, true, false, false, true, … — periodic with period 3 — and
the internal counter cycles `0 → 1 → 2 → 0`. -/
theorem count_policy_three_periodic :
    (∀ n : Nat, (RefreshPolicyCount.init 3).decideAt n = decide ((n + 1) % 3 = 0)) ∧
    (List.range 6).map (RefreshPolicyCount.init 3).decideAt
      = [false, false, true, false, false, true] ∧
    (∀ n : Nat, ((RefreshPolicyCount.init 3).states n).counter = ((n % 3 : Nat) : Int)) := by
  refine ⟨?_, by decide, fun n => by rw [count_states_three n]⟩
  intro n
  simp only [RefreshPolicyCount.decideAt, count_states_three n,
    RefreshPolicyCount.can_update]
  have h3 : n % 3 = 0 ∨ n % 3 = 1 ∨ n % 3 = 2 := by omega
  rcases h3 with h | h | h
  · have h1 : (n + 1) % 3 = 1 := by omega
    rw [h, h1]; norm_num
  · have h1 : (n + 1) % 3 = 2 := by omega
    rw [h, h1]; norm_num
  · have h1 : (n + 1) % 3 = 0 := by omega
    rw [h, h1]; norm_num

/-- Behaviour of the retry loop for at least one iteration: at most `n`
attempts, the returned flag is that of the last attempt, every earlier
attempt failed, and a failing final flag means all `n` attempts were used. -/
theorem append_retry_loop_spec (resp : Nat → Bool) :
    ∀ n : Nat, 1 ≤ n → ∀ i : Nat,
      1 ≤ (append_retry_loop resp i n).1 ∧
      (append_retry_loop resp i n).1 ≤ n ∧
      (append_retry_loop resp i n).2 = resp (i + (append_retry_loop resp i n).1 - 1) ∧
      (∀ j, j + 1 < (append_retry_loop resp i n).1 → resp (i + j) = false) ∧
      ((append_retry_loop resp i n).2 = false → (append_retry_loop resp i n).1 = n) := by
  intro n
  induction n using Nat.strong_induction_on with
  | _ n ih =>
    match n with
    | 0 => intro h; omega
    | 1 =>
      intro _ i
      simp only [append_retry_loop]
      exact ⟨le_refl 1, le_refl 1, by simp, fun j hj => by omega, fun _ => by trivial⟩
    | k + 2 =>
      intro _ i
      by_cases hri : resp i = true
      · simp only [append_retry_loop, hri, if_true]
        refine ⟨by norm_num, by omega, by simpa using hri.symm, fun j hj => by omega,
          fun hf => by simp at hf⟩
      · have hri' : resp i = false := by simpa using hri
        have hrec := ih (k + 1) (by omega) (by omega) (i + 1)
        simp only [append_retry_loop, hri', if_false, Bool.false_eq_true]
        obtain ⟨ha, hb, hc, hd, he⟩ := hrec
        refine ⟨by omega, by omega, ?_, ?_, fun hf => by rw [he hf]⟩
        · rw [hc]
          congr 1
          omega
        · intro j hj
          match j with
          | 0 => exact hri'
          | j' + 1 =>
            have := hd j' (by omega)
            rw [show i + (j' + 1) = i + 1 + j' by omega]
            exact this

/-- C2: `DistributedDict._append_log` with `append_retry_attempts = n ≥ 1`
makes between 1 and `n` attempts, stops at the first attempt whose response
has `success` true, returns the last response without raising when all
attempts fail, and in particular with `n = 3` against a server that always
answers `success=false` makes exactly 3 attempts and returns
`success=false`. -/
theorem append_log_bounded_retry (resp : Nat → Bool) (n : Nat) (h : 1 ≤ n) :
    (∃ c last, append_log_retry resp n = some (c, last) ∧
      1 ≤ c ∧ c ≤ n ∧ last = resp (c - 1) ∧
      (∀ j, j + 1 < c → resp j = false) ∧
      (last = false → c = n)) ∧
    append_log_retry (fun _ => false) 3 = some (3, false) := by
  constructor
  · have hs := append_retry_loop_spec resp n h 0
    refine ⟨(append_retry_loop resp 0 n).1, (append_retry_loop resp 0 n).2, ?_, hs.1,
      hs.2.1, by simpa using hs.2.2.1, fun j hj => by simpa using hs.2.2.2.1 j hj,
      hs.2.2.2.2⟩
    simp only [append_log_retry, if_neg (by omega : ¬ n = 0)]
  · rfl

/-- Witness for `append_log_bounded_retry`: the concrete 3-attempt scenario. -/
theorem append_log_bounded_retry_witness :
    append_log_retry (fun _ => false) 3 = some (3, false) :=
  (append_log_bounded_retry (fun _ => false) 3 (by norm_num)).2

/-- C6: if the tracked contact `A` answers `msg` with a redirect naming
`B`, and `B` answers the re-issued identical `msg` with a non-redirect
response, then `_request` returns `B`'s response with the tracked leader
updated to `B`, having sent exactly the original message to `A` and one
resend of the same message to `B`. -/
theorem request_redirect_convergence (net : Net) (A B : Addr) (msg : Msg)
    (resp : Resp) (fuel : Nat)
    (hA : net A msg = Resp.redirect B) (hB : net B msg = resp)
    (hnr : ∀ L, resp ≠ Resp.redirect L) :
    _request net (fuel + 2) A msg
      = ([(A, msg), (B, msg)], Except.ok (resp, B)) := by
  have h1 : _request net (fuel + 2) A msg =
      ((A, msg) :: (_request net (fuel + 1) B msg).1, (_request net (fuel + 1) B msg).2) := by
    simp only [_request]
    rw [hA]
  have h2 : _request net (fuel + 1) B msg = ([(B, msg)], Except.ok (resp, B)) := by
    simp only [_request]
    rw [hB]
    cases resp with
    | redirect L => exact absurd rfl (hnr L)
    | snapshot s => rfl
    | appendResult b => rfl
    | other v => rfl
  rw [h1, h2]

/-- Witness for `request_redirect_convergence` on `twoNodeNet`. -/
theorem request_redirect_convergence_witness :
    _request twoNodeNet 5 ("A", 0) Msg.get
      = ([(("A", 0), Msg.get), (("B", 0), Msg.get)],
         Except.ok (Resp.appendResult true, ("B", 0))) :=
  request_redirect_convergence twoNodeNet ("A", 0) ("B", 0) Msg.get
    (Resp.appendResult true) 3 rfl rfl (fun _ h => Resp.noConfusion h)

/-- Every message sent by `_request` is the one it was given: redirects
resend the identical message. -/
theorem request_trace_msg (net : Net) :
    ∀ (fuel : Nat) (a : Addr) (msg : Msg) (p : Addr × Msg),
      p ∈ (_request net fuel a msg).1 → p.2 = msg := by
  intro fuel
  induction fuel with
  | zero => intro a msg p hp; simp [_request] at hp
  | succ k ih =>
    intro a msg p hp
    rcases hn : net a msg with leader | s | b | v <;>
      simp only [_request, hn] at hp
    · rcases List.mem_cons.mp hp with h | h
      · rw [h]
      · exact ih _ msg p h
    all_goals
      rcases List.mem_cons.mp hp with h | h
      · rw [h]
      · simp at h

/-- A `_request` that returns normally has sent at least one message. -/
theorem request_ok_trace_ne_nil (net : Net) :
    ∀ (fuel : Nat) (a : Addr) (msg : Msg) (x : Resp × Addr),
      (_request net fuel a msg).2 = Except.ok x → (_request net fuel a msg).1 ≠ [] := by
  intro fuel
  induction fuel with
  | zero => intro a msg x hx; simp [_request] at hx
  | succ k ih =>
    intro a msg x hx
    rcases hn : net a msg with leader | s | b | v <;>
      simp only [_request, hn] at hx ⊢ <;> simp

/-- The retry loop mutates only `server_address`: `data`, the policy and
the retry count of the resulting state are those of the input state,
whether the loop returns or raises. -/
theorem append_loop_frame (net : Net) (fuel : Nat) (msg : Msg) :
    ∀ (n : Nat) (st : DistributedDict),
      ((append_loop net fuel msg n st).2).state.data = st.data ∧
      ((append_loop net fuel msg n st).2).state.refresh_policy = st.refresh_policy ∧
      ((append_loop net fuel msg n st).2).state.append_retry_attempts
        = st.append_retry_attempts := by
  intro n
  induction n using Nat.strong_induction_on with
  | _ n ih =>
    match n with
    | 0 => intro st; exact ⟨rfl, rfl, rfl⟩
    | 1 =>
      intro st
      simp only [append_loop]
      rcases hr : (_request net fuel st.server_address msg).2 with e | ⟨resp, a⟩
      · simp [Step.state]
      · rcases resp with leader | sn | b | v <;> simp [Step.state]
    | k + 2 =>
      intro st
      simp only [append_loop]
      rcases hr : (_request net fuel st.server_address msg).2 with e | ⟨resp, a⟩
      · simp [Step.state]
      · rcases resp with leader | sn | b | v
        · simp [Step.state]
        · simp [Step.state]
        · rcases b with _ | _
          · simpa [Step.state] using
              ih (k + 1) (by omega) { st with server_address := a }
          · simp [Step.state]
        · simp [Step.state]

/-- Every message sent by the retry loop is the append message it was
given. -/
theorem append_loop_trace (net : Net) (fuel : Nat) (msg : Msg) :
    ∀ (n : Nat) (st : DistributedDict) (p : Addr × Msg),
      p ∈ (append_loop net fuel msg n st).1 → p.2 = msg := by
  intro n
  induction n using Nat.strong_induction_on with
  | _ n ih =>
    match n with
    | 0 => intro st p hp; simp [append_loop] at hp
    | 1 =>
      intro st p hp
      simp only [append_loop] at hp
      rcases hr : (_request net fuel st.server_address msg).2 with e | ⟨resp, a⟩ <;>
        rw [hr] at hp
      · exact request_trace_msg net fuel st.server_address msg p hp
      · rcases resp with leader | sn | b | v <;>
          exact request_trace_msg net fuel st.server_address msg p hp
    | k + 2 =>
      intro st p hp
      simp only [append_loop] at hp
      rcases hr : (_request net fuel st.server_address msg).2 with e | ⟨resp, a⟩ <;>
        rw [hr] at hp
      · exact request_trace_msg net fuel st.server_address msg p hp
      · rcases resp with leader | sn | b | v
        · exact request_trace_msg net fuel st.server_address msg p hp
        · exact request_trace_msg net fuel st.server_address msg p hp
        · rcases b with _ | _
          · simp only at hp
            rcases List.mem_append.mp hp with h | h
            · exact request_trace_msg net fuel st.server_address msg p h
            · exact ih (k + 1) (by omega) { st with server_address := a } p h
          · exact request_trace_msg net fuel st.server_address msg p hp
        · exact request_trace_msg net fuel st.server_address msg p hp

/-- A retry loop that returns normally has sent at least one message. -/
theorem append_loop_ok_trace_ne_nil (net : Net) (fuel : Nat) (msg : Msg) :
    ∀ (n : Nat) (st : DistributedDict) (resp : Resp) (stF : DistributedDict),
      (append_loop net fuel msg n st).2 = Step.ok resp stF →
      (append_loop net fuel msg n st).1 ≠ [] := by
  intro n
  induction n using Nat.strong_induction_on with
  | _ n ih =>
    match n with
    | 0 => intro st resp stF hok; simp [append_loop] at hok
    | 1 =>
      intro st resp stF hok
      simp only [append_loop] at hok ⊢
      rcases hr : (_request net fuel st.server_address msg).2 with e | ⟨r0, a⟩ <;>
        rw [hr] at hok
      · simp at hok
      · have hne := request_ok_trace_ne_nil net fuel st.server_address msg (r0, a) hr
        rcases r0 with leader | sn | b | v <;> simpa using hne
    | k + 2 =>
      intro st resp stF hok
      simp only [append_loop] at hok ⊢
      rcases hr : (_request net fuel st.server_address msg).2 with e | ⟨r0, a⟩ <;>
        rw [hr] at hok
      · simp at hok
      · have hne := request_ok_trace_ne_nil net fuel st.server_address msg (r0, a) hr
        rcases r0 with leader | sn | b | v
        · simpa using hne
        · simpa using hne
        · rcases b with _ | _
          · simp only
            intro hnil
            exact hne (List.append_eq_nil.mp hnil).1
          · simpa using hne
        · simpa using hne

/-- Every message sent by `_get_state` is a get message. -/
theorem get_state_trace (net : Net) (pick fuel : Nat) (st : DistributedDict) :
    ∀ p, p ∈ (DistributedDict._get_state net pick fuel st).1 → p.2 = Msg.get := by
  intro p hp
  simp only [DistributedDict._get_state] at hp
  repeat' split at hp
  all_goals first
    | exact request_trace_msg net fuel _ Msg.get p hp
    | simp at hp

/-- Every message sent by `refresh` is a get message. -/
theorem refresh_trace (net : Net) (pick fuel : Nat) (force : Bool)
    (st : DistributedDict) :
    ∀ p, p ∈ (DistributedDict.refresh net pick fuel force st).1 → p.2 = Msg.get := by
  intro p hp
  simp only [DistributedDict.refresh] at hp
  repeat' split at hp
  all_goals first
    | exact get_state_trace net pick fuel _ p hp
    | simp at hp

/-- Under a lock-gated policy whose lock is false, a facade read performs
no network call and resolves from the local mirror alone. -/
theorem getItem_lock_false (net : Net) (pick fuel : Nat) (key : String)
    (st : DistributedDict) (hp : st.refresh_policy = RefreshPolicy.lock false) :
    DistributedDict.getItem net pick fuel key st
      = ([], match st.data key with
             | some v => Step.ok v st
             | none => Step.exn (PyErr.keyError key) st) := by
  obtain ⟨d, sa, ara, rp⟩ := st
  simp only at hp
  subst hp
  rcases hk : d key with _ | v <;>
    simp [DistributedDict.getItem, DistributedDict.refresh,
      RefreshPolicy.can_update, hk]

/-- C3: the claim fails on the code. The membership list lives in the same
`data` mapping as the application keys, under the reserved key
`"cluster"`: a snapshot in which the application bound `"cluster"` to the
integer 7 is accepted by the constructor, and the next read then corrupts
contact selection (`random.choice(7)` raises `TypeError`); conversely, on
a healthy snapshot a facade read of the key `"cluster"` is shadowed — it
returns the membership metadata instead of application data. -/
theorem cluster_key_collision :
    DistributedDict.init netCollide 0 9 "a" 1 3 RefreshPolicy.always
      = ([(("a", 1), Msg.get)], Step.ok () ddCollide) ∧
    DistributedDict.getItem netCollide 0 9 "x" ddCollide
      = ([], Step.exn PyErr.typeError ddCollide) ∧
    DistributedDict.getItem netCollide 0 9 "cluster" ddGood
      = ([], Step.ok (Val.vaddrs [("a", 1)]) ddGood) := ⟨rfl, rfl, rfl⟩

/-- C8: deleting a key present in the freshly refreshed mirror removes it
from the local mirror immediately, before and independently of the remote
append's outcome; the messages sent after the forced refresh are all the
delete-append; and a read of that key issued next under a lock-false
policy raises `KeyError` without any network call, even though the append
may never have reported success. -/
theorem delitem_optimistic (net : Net) (pick fuel : Nat) (key : String)
    (st st2 : DistributedDict) (t1 : Trace) (v : Val)
    (h1 : DistributedDict.refresh net pick fuel true st = (t1, Step.ok () st2))
    (h2 : st2.data key = some v) :
    ∃ t2 r,
      DistributedDict.delItem net pick fuel key st = (t1 ++ t2, r) ∧
      (∀ p, p ∈ t2 → p.2 = Msg.append "delete" key none) ∧
      (∀ resp stF, r = Step.ok resp stF →
        t2 ≠ [] ∧
        stF.data key = none ∧
        (∀ x, x ≠ key → stF.data x = st2.data x) ∧
        stF.refresh_policy = st2.refresh_policy ∧
        (stF.refresh_policy = RefreshPolicy.lock false →
          DistributedDict.getItem net pick fuel key stF
            = ([], Step.exn (PyErr.keyError key) stF))) := by
  simp only [DistributedDict.delItem, DistributedDict.keytransform,
    DistributedDict._append_log]
  rw [h1]
  simp only
  rw [h2]
  refine ⟨_, _, rfl, fun p hp => append_loop_trace net fuel _ _ _ p hp,
    fun resp stF hok => ?_⟩
  have hfr := append_loop_frame net fuel (Msg.append "delete" key none)
    ({ st2 with data := fun x => if x = key then none else st2.data x }).append_retry_attempts
    { st2 with data := fun x => if x = key then none else st2.data x }
  rw [hok] at hfr
  simp only [Step.state] at hfr
  refine ⟨append_loop_ok_trace_ne_nil net fuel _ _ _ resp stF hok, ?_, ?_, hfr.2.1, ?_⟩
  · rw [hfr.1]; simp
  · intro x hx
    rw [hfr.1]
    simp [hx]
  · intro hpol
    have hkey : stF.data key = none := by rw [hfr.1]; simp
    have hget := getItem_lock_false net pick fuel key stF hpol
    rw [hkey] at hget
    exact hget

/-- Witness for `delitem_optimistic`: deleting `"a"` from `ddGood` against
`netGood`, whose appends always report failure. -/
theorem delitem_optimistic_witness :
    ∃ t2 r,
      DistributedDict.delItem netGood 0 3 "a" ddGood
        = ([(("a", 1), Msg.get)] ++ t2, r) ∧
      (∀ p, p ∈ t2 → p.2 = Msg.append "delete" "a" none) ∧
      (∀ resp stF, r = Step.ok resp stF →
        t2 ≠ [] ∧
        stF.data "a" = none ∧
        (∀ x, x ≠ "a" → stF.data x = ddGood.data x) ∧
        stF.refresh_policy = ddGood.refresh_policy ∧
        (stF.refresh_policy = RefreshPolicy.lock false →
          DistributedDict.getItem netGood 0 3 "a" stF
            = ([], Step.exn (PyErr.keyError "a") stF))) :=
  delitem_optimistic netGood 0 3 "a" ddGood ddGood
    [(("a", 1), Msg.get)] (Val.vint 1) rfl rfl

/-- C9: a facade write sends only the change-append message and leaves the
local mirror (and the refresh policy) untouched, whether or not any
attempt succeeded; a subsequent read under a lock-false policy performs no
network call and observes exactly the pre-write cached data, raising
`KeyError` for a key never fetched. -/
theorem setitem_no_local_update (net : Net) (pick fuel : Nat) (key k : String)
    (value : Val) (st : DistributedDict) :
    (∀ p, p ∈ (DistributedDict.setItem net fuel key value st).1 →
        p.2 = Msg.append "change" key (some value)) ∧
    ((DistributedDict.setItem net fuel key value st).2).state.data = st.data ∧
    ((DistributedDict.setItem net fuel key value st).2).state.refresh_policy
      = st.refresh_policy ∧
    (st.refresh_policy = RefreshPolicy.lock false →
      DistributedDict.getItem net pick fuel k
          ((DistributedDict.setItem net fuel key value st).2).state
        = ([], match st.data k with
               | some v =>
                 Step.ok v ((DistributedDict.setItem net fuel key value st).2).state
               | none =>
                 Step.exn (PyErr.keyError k)
                   ((DistributedDict.setItem net fuel key value st).2).state)) := by
  simp only [DistributedDict.setItem, DistributedDict._append_log]
  have hfr := append_loop_frame net fuel (Msg.append "change" key (some value))
    st.append_retry_attempts st
  refine ⟨fun p hp => append_loop_trace net fuel _ _ _ p hp, hfr.1, hfr.2.1,
    fun hpol => ?_⟩
  rw [getItem_lock_false net pick fuel k _ (hfr.2.1.trans hpol), hfr.1]

/-- Witness for `setitem_no_local_update`: after writing `"x"` against
`netGood` (which refuses appends), a read of `"a"` under the lock-false
policy still sees the cached value. -/
theorem setitem_no_local_update_witness :
    DistributedDict.getItem netGood 0 3 "a"
        ((DistributedDict.setItem netGood 3 "x" (Val.vint 5) ddGood).2).state
      = ([], match ddGood.data "a" with
             | some v =>
               Step.ok v ((DistributedDict.setItem netGood 3 "x" (Val.vint 5) ddGood).2).state
             | none =>
               Step.exn (PyErr.keyError "a")
                 ((DistributedDict.setItem netGood 3 "x" (Val.vint 5) ddGood).2).state) :=
  (setitem_no_local_update netGood 0 3 "x" "a" (Val.vint 5) ddGood).2.2.2 rfl

/-- C10: deleting a key absent from the snapshot fetched by the initial
forced refresh raises `KeyError` at the local `del`; no append message is
ever sent (the whole trace consists of the refresh's get messages) and the
state carried out by the exception holds exactly the freshly fetched
snapshot. -/
theorem delitem_missing_key (net : Net) (pick fuel : Nat) (key : String)
    (st st2 : DistributedDict) (t1 : Trace)
    (h1 : DistributedDict.refresh net pick fuel true st = (t1, Step.ok () st2))
    (h2 : st2.data key = none) :
    DistributedDict.delItem net pick fuel key st
      = (t1, Step.exn (PyErr.keyError key) st2) ∧
    (∀ p, p ∈ t1 → p.2 = Msg.get) := by
  constructor
  · simp only [DistributedDict.delItem, DistributedDict.keytransform]
    rw [h1]
    simp only
    rw [h2]
  · intro p hp
    have ht := refresh_trace net pick fuel true st p
    rw [h1] at ht
    exact ht hp

/-- Witness for `delitem_missing_key`: deleting the never-present key
`"z"` from `ddGood`. -/
theorem delitem_missing_key_witness :
    DistributedDict.delItem netGood 0 3 "z" ddGood
      = ([(("a", 1), Msg.get)], Step.exn (PyErr.keyError "z") ddGood) :=
  (delitem_missing_key netGood 0 3 "z" ddGood ddGood
    [(("a", 1), Msg.get)] rfl rfl).1

end Zatt
